import Mathlib

/-!
Verification of the single-page portfolio application: search ranking
(`search-manager`), hash navigation (`navigation-manager.js`), content
loading (`content-loader.js`) and theming (`theme-manager.js`).

The JavaScript modules are embedded shallowly: each manager's mutable
fields become a Lean structure, each method becomes a state-passing
function, and the browser environment (fetch outcome, OS dark-mode
preference, URL fragment) is passed in as explicit input.  String
primitives (`toLowerCase`, `trim`, `startsWith`, `includes`) are modelled
on the character list of the string, since those JavaScript methods act
per code unit.
-/

/-- JavaScript `String.prototype.toLowerCase`, modelled per character. -/
def lowerString (s : String) : String := ⟨s.data.map Char.toLower⟩

/-- JavaScript `String.prototype.trim`: strip whitespace at both ends. -/
def trimString (s : String) : String :=
  ⟨(((s.data.dropWhile Char.isWhitespace).reverse).dropWhile Char.isWhitespace).reverse⟩

/-- JavaScript `text.startsWith(pat)`. -/
def strStartsWith (s pat : String) : Bool := pat.data.isPrefixOf s.data

/-- JavaScript `text.includes(pat)`: `pat` occurs contiguously in `s`. -/
def strIncludes (s pat : String) : Bool := decide (pat.data <:+: s.data)

/-! ### Search manager (search-manager module)

`contentIndex` is a `Map` from lowercased text keys to index entries;
it is modelled as an association list in insertion order (`Map.forEach`
iterates in insertion order, and keys are unique). -/

/-- The `type` field of an index entry (`'navigation' | 'heading' | 'content'`). -/
inductive EntryType where
  | navigation
  | heading
  | content
deriving DecidableEq

/-- One value of `contentIndex`: the record built in `buildContentIndex` /
`indexCurrentPageContent`.  The live `element` reference and the
heading/keyword extras are not observed by any claim and are omitted. -/
structure IndexEntry where
  type : EntryType
  text : String
  page : Option String := none
deriving DecidableEq

/-- An element of the array built by `searchContent`: the spread of the
index entry together with its `relevance` score. -/
structure SearchResult where
  entry : IndexEntry
  relevance : Nat
deriving DecidableEq

/-- `calculateRelevance(item, searchTerm)`: sequential accumulation of
score bonuses exactly as in the source. -/
def calculateRelevance (item : IndexEntry) (searchTerm : String) : Nat :=
  let text := lowerString item.text
  let score : Nat := 0
  let score := if text = searchTerm then score + 10 else score
  let score := if strStartsWith text searchTerm then score + 5 else score
  let score := if strIncludes text searchTerm then score + 3 else score
  let score := if item.type = EntryType.navigation then score + 2 else score
  let score := if item.type = EntryType.heading then score + 1 else score
  score

/-- The candidate test of `searchContent`:
`key.includes(searchTerm) || item.text.toLowerCase().includes(searchTerm)`. -/
def isCandidate (searchTerm : String) (kv : String × IndexEntry) : Bool :=
  strIncludes kv.1 searchTerm || strIncludes (lowerString kv.2.text) searchTerm

/-- Descending-relevance order used by `results.sort((a, b) => b.relevance - a.relevance)`. -/
def resultOrder (a b : SearchResult) : Prop := b.relevance ≤ a.relevance

instance : DecidableRel resultOrder := fun a b => Nat.decLe b.relevance a.relevance

instance : IsTotal SearchResult resultOrder :=
  ⟨fun a b => Nat.le_total b.relevance a.relevance⟩

instance : IsTrans SearchResult resultOrder :=
  ⟨fun _ _ _ hab hbc => Nat.le_trans hbc hab⟩

/-- `searchContent(searchTerm)`: collect every candidate entry with its
score, then sort by descending relevance (`Array.prototype.sort` is
stable, matching insertion sort). -/
def searchContent (index : List (String × IndexEntry)) (searchTerm : String) :
    List SearchResult :=
  ((index.filter (isCandidate searchTerm)).map
    (fun kv => ⟨kv.2, calculateRelevance kv.2 searchTerm⟩)).insertionSort resultOrder

/-- What is rendered below the search input: either a results container
(with the term that produced it), a no-results view, or nothing. -/
inductive SearchDisplay where
  | nothingShown
  | results (rs : List SearchResult) (term : String)
  | noResults (term : String)
deriving DecidableEq

/-- Mutable state of the `SearchManager` observable by the claims:
the content index, the search input's value, the rendered results and
the in-content highlight term. -/
structure SearchState where
  contentIndex : List (String × IndexEntry)
  inputValue : String
  display : SearchDisplay
  highlightTerm : Option String
deriving DecidableEq

/-- `clearSearch()`: empty the input, remove the results container and
all highlights. -/
def clearSearch (st : SearchState) : SearchState :=
  { st with inputValue := "", display := SearchDisplay.nothingShown, highlightTerm := none }

/-- `displaySearchResults(results, searchTerm)`: replace prior results;
an empty result list shows the no-results view, otherwise the results
container plus content highlighting. -/
def displaySearchResults (st : SearchState) (results : List SearchResult)
    (searchTerm : String) : SearchState :=
  if results.isEmpty then
    { st with display := SearchDisplay.noResults searchTerm }
  else
    { st with display := SearchDisplay.results results searchTerm,
              highlightTerm := some searchTerm }

/-- `performSearch(query)`: queries that are empty or shorter than two
characters after trimming clear the search; otherwise the lowercased,
trimmed term is searched and displayed. -/
def performSearch (st : SearchState) (query : String) : SearchState :=
  if query = "" ∨ (trimString query).length < 2 then
    clearSearch st
  else
    let searchTerm := trimString (lowerString query)
    displaySearchResults st (searchContent st.contentIndex searchTerm) searchTerm

/-- `rebuildIndex()`: clear the index and repopulate it from the current
document; the freshly scanned index is an input here because the DOM is
external. -/
def rebuildIndex (st : SearchState) (freshIndex : List (String × IndexEntry)) :
    SearchState :=
  { st with contentIndex := freshIndex }

/-- `clearCache()` of the search manager: drop the index and clear the UI. -/
def searchClearCache (st : SearchState) : SearchState :=
  clearSearch { st with contentIndex := [] }

/-- Well-formedness established by `buildContentIndex`: keys of the map
are unique, and every navigation or heading entry is keyed by the
lowercased version of its display text. -/
def WellFormedIndex (index : List (String × IndexEntry)) : Prop :=
  (index.map Prod.fst).Nodup ∧
    ∀ kv ∈ index,
      (kv.2.type = EntryType.navigation ∨ kv.2.type = EntryType.heading) →
        kv.1 = lowerString kv.2.text

instance (index : List (String × IndexEntry)) : Decidable (WellFormedIndex index) :=
  inferInstanceAs (Decidable (_ ∧ _))

/-! ### Theme manager (theme-manager.js) -/

/-- Observable theme state: the `data-theme` attribute on the document
element, the manager's `this.theme` field, the persisted
`localStorage` entry `theme`, and the toggle-button icon. -/
structure ThemeState where
  applied : String
  theme : String
  saved : Option String
  icon : String
deriving DecidableEq

/-- `updateToggleButton(theme)`: the icon shown on the toggle. -/
def themeIcon (theme : String) : String := if theme = "light" then "🌙" else "☀️"

/-- `applyTheme(theme)`: set the document attribute, the field, the
persisted value and the button icon. -/
def applyTheme (st : ThemeState) (theme : String) : ThemeState :=
  { st with applied := theme, theme := theme, saved := some theme, icon := themeIcon theme }

/-- `toggleTheme()`: flip between `'light'` and `'dark'` and apply. -/
def toggleTheme (st : ThemeState) : ThemeState :=
  applyTheme st (if st.theme = "light" then "dark" else "light")

/-- `getInitialTheme()`: persisted value, else OS preference, else light. -/
def getInitialTheme (saved : Option String) (systemPrefersDark : Bool) : String :=
  match saved with
  | some t => t
  | none => if systemPrefersDark then "dark" else "light"

/-- The `change` callback installed by `setupSystemThemeListener`: apply
the OS theme only when no persisted preference exists. -/
def handleSystemThemeChange (st : ThemeState) (matchesDark : Bool) : ThemeState :=
  if st.saved = none then
    applyTheme st (if matchesDark then "dark" else "light")
  else
    st

/-! ### Content loader (content-loader.js)

The spec places the static content dataset and the text of the HTML
fragments out of scope, and no claim inspects markup text, so a markup
string is abstracted to a constructor recording exactly the data the
real string is built from (which page was rendered from the content
store, the body of a fetched fragment, the page or message interpolated
into an error view).  Distinct constructors correspond to distinct
strings of the program. -/

/-- Renderable markup, abstracted to its provenance. -/
inductive Markup where
  /-- An empty content container. -/
  | empty
  /-- `renderHomeContent()`: markup rendered from `CONTENT_DATA.home`. -/
  | homeView
  /-- `renderBlogsContent()`: markup rendered from `CONTENT_DATA.blogs`. -/
  | blogsView
  /-- `renderProjectsContent()`: markup rendered from `CONTENT_DATA.projects`. -/
  | projectsView
  /-- `renderMiscContent()`: markup rendered from `CONTENT_DATA.misc`. -/
  | miscView
  /-- `generateErrorContent(page)`: the generic content-not-available view. -/
  | errorView (page : String)
  /-- `await response.text()`: the body of a successfully fetched fragment. -/
  | fetched (body : String)
  /-- `renderErrorContent(error)` of the navigation manager. -/
  | navErrorView (msg : String)
  /-- `showLoadingState()` of the navigation manager. -/
  | loadingView
deriving DecidableEq

/-- `renderHomeContent()`. -/
def renderHomeContent : Markup := Markup.homeView

/-- `renderBlogsContent()`. -/
def renderBlogsContent : Markup := Markup.blogsView

/-- `renderProjectsContent()`. -/
def renderProjectsContent : Markup := Markup.projectsView

/-- `renderMiscContent()`. -/
def renderMiscContent : Markup := Markup.miscView

/-- `generateErrorContent(page)`. -/
def generateErrorContent (page : String) : Markup := Markup.errorView page

/-- The keys for which `CONTENT_DATA[page]` is defined in
`src/data/content.js` (in declaration order). -/
def contentDataKeys : List String :=
  ["home", "blogs", "projects", "misc", "navigation", "site"]

/-- `generateFallbackContent(page)`: render from the content store when
an entry exists and the page is one of the four views, otherwise the
generic error view. -/
def generateFallbackContent (page : String) : Markup :=
  if contentDataKeys.contains page then
    match page with
    | "home" => renderHomeContent
    | "blogs" => renderBlogsContent
    | "projects" => renderProjectsContent
    | "misc" => renderMiscContent
    | _ => generateErrorContent page
  else
    generateErrorContent page

/-- Outcome of `fetch('./src/components/content-<page>.html')` as seen by
the loader: the fragment body on a successful response, or failure
(network error or `!response.ok`, which the code folds together by
throwing into its own catch). -/
inductive FetchOutcome where
  | success (body : String)
  | failure
deriving DecidableEq

/-- `fetchContentComponent(page)`: the fetched text on success, and the
fallback content on any failure — this function resolves on every
outcome, it never rejects. -/
def fetchContentComponent (page : String) (outcome : FetchOutcome) : Markup :=
  match outcome with
  | FetchOutcome.success body => Markup.fetched body
  | FetchOutcome.failure => generateFallbackContent page

/-- Mutable state of the `ContentLoader`: the `contentCache` map and the
`loadingPromises` map.  A pending entry carries the markup that the
in-flight promise will resolve to. -/
structure LoaderState where
  contentCache : List (String × Markup)
  loadingPromises : List (String × Markup)
deriving DecidableEq

/-- `setupContentCache()` as run by the constructor: pre-render all four
pages from the content store into the cache. -/
def setupContentCache : LoaderState :=
  { contentCache :=
      [("home", renderHomeContent), ("blogs", renderBlogsContent),
       ("projects", renderProjectsContent), ("misc", renderMiscContent)],
    loadingPromises := [] }

/-- The `try`/`finally`-style tail of `loadContentComponent`: once the
loading promise settles, cache the content on success, and in `both`
the success and the failure branch delete the pending marker. -/
def settlePendingLoad (st : LoaderState) (page : String)
    (settled : Except String Markup) : LoaderState :=
  match settled with
  | Except.ok content =>
      { contentCache := (page, content) :: st.contentCache,
        loadingPromises := st.loadingPromises.eraseP (fun kv => kv.1 == page) }
  | Except.error _ =>
      { st with loadingPromises := st.loadingPromises.eraseP (fun kv => kv.1 == page) }

/-- `loadContentComponent(page)`.  Returns the resolved markup, the new
loader state, and whether a fresh fetch was started.  The cached entry
is returned on a hit; an in-flight promise is reused on a pending hit;
otherwise the pending marker is set, the fetch resolves (it never
rejects, so the catch that rethrows is unreachable) and the marker is
removed again by `settlePendingLoad`. -/
def loadContentComponent (st : LoaderState) (page : String) (outcome : FetchOutcome) :
    Markup × LoaderState × Bool :=
  match st.contentCache.lookup page with
  | some cached => (cached, st, false)
  | none =>
    match st.loadingPromises.lookup page with
    | some inflight => (inflight, st, false)
    | none =>
      let content := fetchContentComponent page outcome
      let pendingSet : LoaderState :=
        { st with loadingPromises := (page, content) :: st.loadingPromises }
      (content, settlePendingLoad pendingSet page (Except.ok content), true)

/-- `clearCache()` of the content loader. -/
def loaderClearCache (_st : LoaderState) : LoaderState :=
  { contentCache := [], loadingPromises := [] }

/-! ### Navigation manager (navigation-manager.js) -/

/-- Observable navigation state: the manager's `currentPage` and
`isLoading` fields, its content loader, and the browser effects it
drives — the pushed history entries, the document title, the content
container and the nav link carrying the `active` class. -/
structure NavState where
  currentPage : String
  isLoading : Bool
  loader : LoaderState
  history : List String
  title : String
  content : Markup
  activeNav : String
deriving DecidableEq

/-- `validatePage(page)`: membership in the fixed valid set. -/
def validatePage (page : String) : Bool :=
  (["home", "blogs", "projects", "misc"] : List String).contains page

/-- `updatePageTitle(page)`: the static per-page title table, with the
bare site title as default. -/
def pageTitle (page : String) : String :=
  if page = "home" then "Karl's Digital Space - Home"
  else if page = "blogs" then "Karl's Digital Space - Blogs"
  else if page = "projects" then "Karl's Digital Space - Projects"
  else if page = "misc" then "Karl's Digital Space - Miscellaneous"
  else "Karl's Digital Space"

/-- `loadPageContent(page, updateHistory)`.  Throws (models as
`Except.error`, carrying the untouched state) on an invalid page;
otherwise pushes history when requested, updates the active link, loads
content through the content loader (which never rejects, so the inner
catch that renders an error is unreachable), sets `currentPage`, and
updates the title.  The search-index rebuild and scroll that follow
touch no field modelled here. -/
def loadPageContent (st : NavState) (page : String) (updateHistory : Bool)
    (outcome : FetchOutcome) : Except (String × NavState) NavState :=
  if validatePage page = false then
    Except.error ("Invalid page: " ++ page, st)
  else
    let st1 := if updateHistory then { st with history := st.history ++ [page] } else st
    let st2 := { st1 with activeNav := page }
    let loaded := loadContentComponent st2.loader page outcome
    let st3 := { st2 with loader := loaded.2.1, content := loaded.1, currentPage := page }
    Except.ok { st3 with title := pageTitle page }

/-- `navigateToPage(page)`: drop the request when the page is current or
a navigation is in flight; otherwise set the loading flag, show the
loading view, run `loadPageContent`, render the error view if it threw,
and clear the loading flag. -/
def navigateToPage (st : NavState) (page : String) (outcome : FetchOutcome) : NavState :=
  if page = st.currentPage ∨ st.isLoading then
    st
  else
    let st1 := { st with isLoading := true, content := Markup.loadingView }
    match loadPageContent st1 page true outcome with
    | Except.ok st2 => { st2 with isLoading := false }
    | Except.error (msg, st2) =>
        { st2 with content := Markup.navErrorView msg, isLoading := false }

/-- `handleInitialPageLoad()`: read the URL fragment (empty when absent,
`hash || 'home'` only replaces the empty string) and load it without
pushing history. -/
def handleInitialPageLoad (st : NavState) (hash : String) (outcome : FetchOutcome) :
    Except (String × NavState) NavState :=
  loadPageContent st (if hash = "" then "home" else hash) false outcome

/-- The `hashchange` listener: navigate when the fragment is non-empty
and differs from the current page. -/
def handleHashChange (st : NavState) (hash : String) (outcome : FetchOutcome) : NavState :=
  if hash ≠ "" ∧ hash ≠ st.currentPage then navigateToPage st hash outcome else st

/-- The navigation manager's state right after its constructor ran (the
content loader constructor has pre-filled the cache; nothing rendered
yet, no history pushed, initial document title from the page shell). -/
def initialNavState : NavState :=
  { currentPage := "home", isLoading := false, loader := setupContentCache,
    history := [], title := "Karl's Digital Space", content := Markup.empty,
    activeNav := "" }

/-! ### Concrete states used to instantiate the theorems -/

/-- The navigation entry indexed for the `Home` nav link. -/
def demoNavHome : IndexEntry :=
  { type := EntryType.navigation, text := "Home", page := some "home" }

/-- A small content index as `buildContentIndex` would produce it: two
navigation links and one heading, each keyed by lowercased text. -/
def demoIndex : List (String × IndexEntry) :=
  [("home", demoNavHome),
   ("blogs", { type := EntryType.navigation, text := "Blogs", page := some "blogs" }),
   ("welcome home", { type := EntryType.heading, text := "Welcome Home" })]

/-- A theme state in which the user has explicitly persisted `dark`. -/
def demoThemePersisted : ThemeState :=
  { applied := "dark", theme := "dark", saved := some "dark", icon := themeIcon "dark" }

/-- A coherent theme state currently on `light`. -/
def demoThemeLight : ThemeState :=
  { applied := "light", theme := "light", saved := some "light", icon := themeIcon "light" }

/-- A loader whose caches were cleared (`clearCache()`), so every page
misses the cache. -/
def demoEmptyLoader : LoaderState := loaderClearCache setupContentCache


/-! ## Helper lemmas -/

lemma startsWithSelf (s : String) : strStartsWith s s = true := by
  unfold strStartsWith
  exact List.isPrefixOf_iff_prefix.mpr ( List.prefix_refl _)

lemma includesSelf (s : String) : strIncludes s s = true := by
  unfold strIncludes
  exact decide_eq_true ( List.infix_refl _)

/-! ## Claim theorems -/

/-- C10: performing a search is read-only with respect to the content
index — `performSearch` (and the `clearSearch` / `displaySearchResults`
it delegates to) leaves the key-to-entry mapping untouched for every
query. -/
theorem performSearch_preserves_index (st : SearchState) (query : String) :
    (performSearch st query).contentIndex = st.contentIndex ∧
    (clearSearch st).contentIndex = st.contentIndex ∧
    ∀ results term,
      (displaySearchResults st results term).contentIndex = st.contentIndex := by
  refine ⟨?_, rfl, ?_⟩
  · unfold performSearch displaySearchResults
    split
    · rfl
    · dsimp only
      split <;> rfl
  · intro results term
    unfold displaySearchResults
    split <;> rfl

/-- C2: `navigateToPage` on the already-current page, or while a
navigation is in flight, is a no-op — the whole navigation state
(current page, loading flag, loader caches, history, title, rendered
content, active link) is returned unchanged and the request is dropped. -/
theorem navigateToPage_noop (st : NavState) (page : String) (outcome : FetchOutcome)
    (h : page = st.currentPage ∨ st.isLoading = true) :
    navigateToPage st page outcome = st := by
  unfold navigateToPage
  exact if_pos h

/-- Witness for `navigateToPage_noop` at the constructor state and the
already-current page `home`. -/
theorem navigateToPage_noop_witness :
    ("home" = initialNavState.currentPage ∨ initialNavState.isLoading = true) ∧
    navigateToPage initialNavState "home" FetchOutcome.failure = initialNavState :=
  ⟨Or.inl rfl, navigateToPage_noop initialNavState "home" FetchOutcome.failure (Or.inl rfl)⟩

/-- C8: the OS dark-mode listener applies the system theme only while no
persisted preference exists; whenever a persisted preference exists the
change event leaves the state (in particular the applied theme)
untouched. -/
theorem systemThemeListener_persisted_override (st : ThemeState) (matchesDark : Bool) :
    (∀ v, st.saved = some v → handleSystemThemeChange st matchesDark = st) ∧
    (st.saved = none →
      handleSystemThemeChange st matchesDark =
        applyTheme st (if matchesDark then "dark" else "light")) := by
  constructor
  · intro v hv
    unfold handleSystemThemeChange
    rw [if_neg]
    simp [hv]
  · intro h
    unfold handleSystemThemeChange
    rw [if_pos h]

/-- Witness for `systemThemeListener_persisted_override`: with `dark`
persisted, an OS switch to light changes nothing. -/
theorem systemThemeListener_persisted_override_witness :
    demoThemePersisted.saved = some "dark" ∧
    handleSystemThemeChange demoThemePersisted false = demoThemePersisted :=
  ⟨rfl, (systemThemeListener_persisted_override demoThemePersisted false).1 "dark" rfl⟩

/-- C9: from a coherent state whose theme is `light` or `dark`, toggling
twice restores the applied document attribute, the persisted value and
the theme field. -/
theorem toggleTheme_double_identity (st : ThemeState)
    (hval : st.theme = "light" ∨ st.theme = "dark")
    (happlied : st.applied = st.theme) (hsaved : st.saved = some st.theme) :
    (toggleTheme (toggleTheme st)).applied = st.applied ∧
    (toggleTheme (toggleTheme st)).saved = st.saved ∧
    (toggleTheme (toggleTheme st)).theme = st.theme := by
  rcases hval with h | h <;>
    simp [toggleTheme, applyTheme, themeIcon, h, happlied, hsaved]

/-- Witness for `toggleTheme_double_identity` on the light state. -/
theorem toggleTheme_double_identity_witness :
    (demoThemeLight.theme = "light" ∨ demoThemeLight.theme = "dark") ∧
    demoThemeLight.applied = demoThemeLight.theme ∧
    demoThemeLight.saved = some demoThemeLight.theme ∧
    ((toggleTheme (toggleTheme demoThemeLight)).applied = demoThemeLight.applied ∧
      (toggleTheme (toggleTheme demoThemeLight)).saved = demoThemeLight.saved ∧
      (toggleTheme (toggleTheme demoThemeLight)).theme = demoThemeLight.theme) :=
  ⟨Or.inl rfl, rfl, rfl,
    toggleTheme_double_identity demoThemeLight (Or.inl rfl) rfl rfl⟩

/-- C3: the content-loader contract — cached markup is returned
immediately with no new request; a pending load is coalesced onto the
in-flight promise; otherwise a fetch starts, its result is cached and
the pending marker is removed in the success and in the failure branch
alike; a failed fetch resolves to the content-store fallback, and an
identifier with no static content resolves to the generic
content-not-available view instead of throwing. -/
theorem loadContentComponent_contract (st : LoaderState) (page : String)
    (outcome : FetchOutcome) (m : Markup) :
    (st.contentCache.lookup page = some m →
      loadContentComponent st page outcome = (m, st, false)) ∧
    (st.contentCache.lookup page = none → st.loadingPromises.lookup page = some m →
      loadContentComponent st page outcome = (m, st, false)) ∧
    (st.contentCache.lookup page = none → st.loadingPromises.lookup page = none →
      loadContentComponent st page outcome =
        (fetchContentComponent page outcome,
          { contentCache := (page, fetchContentComponent page outcome) :: st.contentCache,
            loadingPromises := st.loadingPromises }, true)) ∧
    (∀ settled, (settlePendingLoad st page settled).loadingPromises =
        st.loadingPromises.eraseP (fun kv => kv.1 == page)) ∧
    fetchContentComponent page FetchOutcome.failure = generateFallbackContent page ∧
    (contentDataKeys.contains page = false →
      generateFallbackContent page = Markup.errorView page) := by
  refine ⟨?_, ?_, ?_, ?_, rfl, ?_⟩
  · intro h
    unfold loadContentComponent
    rw [h]
  · intro h1 h2
    unfold loadContentComponent
    rw [h1, h2]
  · intro h1 h2
    unfold loadContentComponent
    rw [h1, h2]
    dsimp only
    unfold settlePendingLoad
    rw [List.eraseP_cons_of_pos]
    simp
  · intro settled
    cases settled <;> rfl
  · intro h
    unfold generateFallbackContent
    rw [if_neg]
    · rfl
    · simpa using h

/-- Witness for `loadContentComponent_contract`: on the cleared loader,
a failed fetch for `projects` starts a request, resolves to the
content-store fallback and caches it, leaving no pending marker. -/
theorem loadContentComponent_contract_witness :
    demoEmptyLoader.contentCache.lookup "projects" = none ∧
    demoEmptyLoader.loadingPromises.lookup "projects" = none ∧
    loadContentComponent demoEmptyLoader "projects" FetchOutcome.failure =
      (fetchContentComponent "projects" FetchOutcome.failure,
        { contentCache :=
            ("projects", fetchContentComponent "projects" FetchOutcome.failure) ::
              demoEmptyLoader.contentCache,
          loadingPromises := demoEmptyLoader.loadingPromises }, true) :=
  ⟨rfl, rfl,
    (loadContentComponent_contract demoEmptyLoader "projects" FetchOutcome.failure
      Markup.empty).2.2.1 rfl rfl⟩

/-- C6 counterexample: at the constructor state the loader returns the
locally pre-rendered markup for `home` and starts no request even
though the fetch would have succeeded with a fresh fragment — so a
fetched fragment is not preferred, and local markup is used without any
fetch failure. -/
theorem initial_cache_skips_fetch :
    loadContentComponent setupContentCache "home" (FetchOutcome.success "fresh fragment") =
      (renderHomeContent, setupContentCache, false) ∧
    renderHomeContent ≠ Markup.fetched "fresh fragment" :=
  ⟨rfl, by decide⟩

/-- C6 (amended): only on a cache miss with no pending load does the
loader prefer the fetched fragment, falling back to content-store
markup when the fetch fails; the constructor pre-caches locally
rendered markup for every valid page, so in the initial state all four
pages resolve from the cache without fetching. -/
theorem cacheMiss_prefers_fetch (st : LoaderState) (page : String) (body : String)
    (h1 : st.contentCache.lookup page = none)
    (h2 : st.loadingPromises.lookup page = none) :
    (loadContentComponent st page (FetchOutcome.success body)).1 = Markup.fetched body ∧
    (loadContentComponent st page (FetchOutcome.success body)).2.2 = true ∧
    (loadContentComponent st page FetchOutcome.failure).1 = generateFallbackContent page ∧
    ∀ p ∈ (["home", "blogs", "projects", "misc"] : List String), ∀ o : FetchOutcome,
      (loadContentComponent setupContentCache p o).2.2 = false := by
  refine ⟨?_, ?_, ?_, ?_⟩
  · unfold loadContentComponent
    rw [h1, h2]
    rfl
  · unfold loadContentComponent
    rw [h1, h2]
  · unfold loadContentComponent
    rw [h1, h2]
    rfl
  · intro p hp o
    fin_cases hp <;> rfl

/-- Witness for `cacheMiss_prefers_fetch` on the cleared loader and the
`blogs` page. -/
theorem cacheMiss_prefers_fetch_witness :
    demoEmptyLoader.contentCache.lookup "blogs" = none ∧
    demoEmptyLoader.loadingPromises.lookup "blogs" = none ∧
    ((loadContentComponent demoEmptyLoader "blogs" (FetchOutcome.success "frag")).1 =
        Markup.fetched "frag" ∧
      (loadContentComponent demoEmptyLoader "blogs" (FetchOutcome.success "frag")).2.2 = true ∧
      (loadContentComponent demoEmptyLoader "blogs" FetchOutcome.failure).1 =
        generateFallbackContent "blogs" ∧
      ∀ p ∈ (["home", "blogs", "projects", "misc"] : List String), ∀ o : FetchOutcome,
        (loadContentComponent setupContentCache p o).2.2 = false) :=
  ⟨rfl, rfl, cacheMiss_prefers_fetch demoEmptyLoader "blogs" "frag" rfl rfl⟩

/-- C4 counterexample: navigating to the unknown identifier `contact`
from the fresh state does change the rendered content — the content
container ends up showing the invalid-page error view, not what it
showed before the call. -/
theorem navigate_invalid_rerenders_content :
    (navigateToPage initialNavState "contact" FetchOutcome.failure).content ≠
      initialNavState.content := by
  decide

/-- C4 (amended): an unknown identifier makes `loadPageContent` throw
with the state untouched — so current page, history and title are
exactly as before — while `navigateToPage` (when it does not drop the
request outright) additionally rewrites the content container with the
loading view and then the invalid-page error view. -/
theorem invalidPage_rejected_state_preserved (st : NavState) (page : String)
    (updateHistory : Bool) (outcome : FetchOutcome)
    (h : validatePage page = false) :
    loadPageContent st page updateHistory outcome =
      Except.error ("Invalid page: " ++ page, st) ∧
    (¬(page = st.currentPage ∨ st.isLoading = true) →
      (navigateToPage st page outcome).currentPage = st.currentPage ∧
      (navigateToPage st page outcome).history = st.history ∧
      (navigateToPage st page outcome).title = st.title ∧
      (navigateToPage st page outcome).loader = st.loader ∧
      (navigateToPage st page outcome).isLoading = false ∧
      (navigateToPage st page outcome).content =
        Markup.navErrorView ("Invalid page: " ++ page)) := by
  have hload : ∀ st' : NavState, ∀ b,
      loadPageContent st' page b outcome = Except.error ("Invalid page: " ++ page, st') := by
    intro st' b
    unfold loadPageContent
    rw [if_pos h]
  refine ⟨hload st updateHistory, ?_⟩
  intro hn
  unfold navigateToPage
  rw [if_neg hn]
  dsimp only
  rw [hload _ true]
  exact ⟨rfl, rfl, rfl, rfl, rfl, rfl⟩

/-- Witness for `invalidPage_rejected_state_preserved` at the fresh
state and the unknown identifier `contact`. -/
theorem invalidPage_rejected_state_preserved_witness :
    validatePage "contact" = false ∧
    loadPageContent initialNavState "contact" true FetchOutcome.failure =
      Except.error ("Invalid page: contact", initialNavState) ∧
    (navigateToPage initialNavState "contact" FetchOutcome.failure).history =
      initialNavState.history :=
  ⟨rfl,
    (invalidPage_rejected_state_preserved initialNavState "contact" true
        FetchOutcome.failure rfl).1,
    (((invalidPage_rejected_state_preserved initialNavState "contact" true
        FetchOutcome.failure rfl).2 (by decide)).2).1⟩

/-- C5: when a navigation that entered the loading state fails during
`loadPageContent`, `navigateToPage` renders the recoverable error view
in the content container and leaves history, title, current page and
the loader untouched, clearing the loading flag. -/
theorem navigation_failure_renders_error_view (st : NavState) (page : String)
    (outcome : FetchOutcome) (msg : String) (st' : NavState)
    (hn : ¬(page = st.currentPage ∨ st.isLoading = true))
    (hfail : loadPageContent { st with isLoading := true, content := Markup.loadingView }
        page true outcome = Except.error (msg, st')) :
    (navigateToPage st page outcome).history = st.history ∧
    (navigateToPage st page outcome).title = st.title ∧
    (navigateToPage st page outcome).currentPage = st.currentPage ∧
    (navigateToPage st page outcome).loader = st.loader ∧
    (navigateToPage st page outcome).isLoading = false ∧
    (navigateToPage st page outcome).content = Markup.navErrorView msg := by
  unfold navigateToPage
  rw [if_neg hn]
  dsimp only
  have hv : validatePage page = false := by
    cases hv' : validatePage page with
    | false => rfl
    | true =>
      exfalso
      unfold loadPageContent at hfail
      rw [hv'] at hfail
      simp at hfail
  have h2 : loadPageContent { st with isLoading := true, content := Markup.loadingView }
      page true outcome =
      Except.error ("Invalid page: " ++ page,
        { st with isLoading := true, content := Markup.loadingView }) := by
    unfold loadPageContent
    rw [if_pos hv]
  have hmsg : msg = "Invalid page: " ++ page := by
    rw [h2] at hfail
    injection hfail with h'
    exact (congrArg Prod.fst h').symm
  subst hmsg
  rw [h2]
  exact ⟨rfl, rfl, rfl, rfl, rfl, rfl⟩

/-- Witness for `navigation_failure_renders_error_view` at the fresh
state with the invalid identifier `contact`. -/
theorem navigation_failure_renders_error_view_witness :
    (¬("contact" = initialNavState.currentPage ∨ initialNavState.isLoading = true)) ∧
    loadPageContent
        { initialNavState with isLoading := true, content := Markup.loadingView }
        "contact" true FetchOutcome.failure =
      Except.error ("Invalid page: contact",
        { initialNavState with isLoading := true, content := Markup.loadingView }) ∧
    ((navigateToPage initialNavState "contact" FetchOutcome.failure).history =
        initialNavState.history ∧
      (navigateToPage initialNavState "contact" FetchOutcome.failure).title =
        initialNavState.title ∧
      (navigateToPage initialNavState "contact" FetchOutcome.failure).currentPage =
        initialNavState.currentPage ∧
      (navigateToPage initialNavState "contact" FetchOutcome.failure).loader =
        initialNavState.loader ∧
      (navigateToPage initialNavState "contact" FetchOutcome.failure).isLoading = false ∧
      (navigateToPage initialNavState "contact" FetchOutcome.failure).content =
        Markup.navErrorView "Invalid page: contact") :=
  ⟨by decide, rfl,
    navigation_failure_renders_error_view initialNavState "contact" FetchOutcome.failure
      "Invalid page: contact"
      { initialNavState with isLoading := true, content := Markup.loadingView }
      (by decide) rfl⟩

/-- C7 counterexample: at initial load the invalid fragment `foo` does
not default to the home identifier — `handleInitialPageLoad` rejects it
with an invalid-page error and loads nothing. -/
theorem invalid_fragment_errors :
    handleInitialPageLoad initialNavState "foo" FetchOutcome.failure =
      Except.error ("Invalid page: foo", initialNavState) :=
  rfl

/-- C7 (amended): an absent fragment defaults to the home identifier and
loads it — from the fresh state the home view is rendered without a
history push — but an invalid fragment is rejected with an invalid-page
error, leaving the state untouched, rather than defaulting to home. -/
theorem initialLoad_fragment_behavior (st : NavState) (hash : String)
    (outcome : FetchOutcome) :
    (hash = "" → handleInitialPageLoad st hash outcome =
      loadPageContent st "home" false outcome) ∧
    (hash ≠ "" → validatePage hash = false →
      handleInitialPageLoad st hash outcome =
        Except.error ("Invalid page: " ++ hash, st)) ∧
    (∃ st', handleInitialPageLoad initialNavState "" outcome = Except.ok st' ∧
      st'.currentPage = "home" ∧ st'.content = renderHomeContent ∧
      st'.history = initialNavState.history ∧ st'.title = pageTitle "home") := by
  refine ⟨?_, ?_, ?_⟩
  · intro h
    unfold handleInitialPageLoad
    rw [if_pos h]
  · intro h1 h2
    unfold handleInitialPageLoad
    rw [if_neg h1]
    unfold loadPageContent
    rw [if_pos h2]
  · exact ⟨_, rfl, rfl, rfl, rfl, rfl⟩

/-- Witness for `initialLoad_fragment_behavior`: the invalid fragment
`bad` at the fresh state. -/
theorem initialLoad_fragment_behavior_witness :
    ("bad" : String) ≠ "" ∧ validatePage "bad" = false ∧
    handleInitialPageLoad initialNavState "bad" FetchOutcome.failure =
      Except.error ("Invalid page: bad", initialNavState) :=
  ⟨by decide, rfl,
    (initialLoad_fragment_behavior initialNavState "bad" FetchOutcome.failure).2.1
      (by decide) rfl⟩

/-- Upper bound of the relevance heuristic: no entry can score above
`10 + 5 + 3 + 2` (the type bonuses are mutually exclusive). -/
lemma calculateRelevance_le (item : IndexEntry) (q : String) :
    calculateRelevance item q ≤ 20 := by
  unfold calculateRelevance
  dsimp only
  split_ifs <;> simp_all

/-- An entry scores exactly 20 precisely when its lowercased text equals
the search term and it is a navigation entry (an exact match implies the
prefix and substring bonuses). -/
lemma relevance_twenty_iff {item : IndexEntry} {q : String} :
    calculateRelevance item q = 20 ↔
      (lowerString item.text = q ∧ item.type = EntryType.navigation) := by
  constructor
  · intro h
    unfold calculateRelevance at h
    dsimp only at h
    split_ifs at h <;> simp_all
  · rintro ⟨h1, h2⟩
    unfold calculateRelevance
    dsimp only
    rw [if_pos h1, h1]
    rw [if_pos (startsWithSelf q), if_pos (includesSelf q), if_pos h2, if_neg]
    rw [h2]
    simp

/-- In an association list with unique keys, a key determines its value. -/
lemma nodupKeys_eq {l : List (String × IndexEntry)}
    (h : (l.map Prod.fst).Nodup) {k : String} {a b : IndexEntry}
    (ha : (k, a) ∈ l) (hb : (k, b) ∈ l) : a = b := by
  induction l with
  | nil => cases ha
  | cons hd tl ih =>
    rw [List.map_cons, List.nodup_cons] at h
    rcases List.mem_cons.mp ha with ha' | ha' <;>
      rcases List.mem_cons.mp hb with hb' | hb'
    · exact congrArg Prod.snd (ha'.trans hb'.symm)
    · exfalso
      apply h.1
      rw [← ha']
      exact List.mem_map.mpr ⟨(k, b), hb', rfl⟩
    · exfalso
      apply h.1
      rw [← hb']
      exact List.mem_map.mpr ⟨(k, a), ha', rfl⟩
    · exact ih h.2 ha' hb'

/-- If every preimage of `m` under `f` in `l` is the fixed element `a0`,
then `m` occurs in `l.map f` at most as often as `a0` occurs in `l`. -/
lemma count_map_le_of_unique_preimage {α β : Type} [DecidableEq α] [DecidableEq β]
    (f : α → β) (m : β) (a0 : α) :
    ∀ l : List α, (∀ a ∈ l, f a = m → a = a0) → (l.map f).count m ≤ l.count a0
  | [], _ => by simp
  | hd :: tl, h => by
    rw [List.map_cons, List.count_cons, List.count_cons]
    have ihtl := count_map_le_of_unique_preimage f m a0 tl
      (fun a ha hf => h a (List.mem_cons_of_mem hd ha) hf)
    by_cases hfm : f hd = m
    · have heq : hd = a0 := h hd (List.mem_cons_self hd tl) hfm
      rw [if_pos (beq_iff_eq.mpr hfm), if_pos (beq_iff_eq.mpr heq)]
      omega
    · have h1 : (f hd == m) = false := beq_eq_false_iff_ne.mpr hfm
      rw [h1]
      simp only [Bool.false_eq_true, if_false]
      split <;> omega

/-- In a well-formed index containing `(q, e)`, any candidate result
scoring 20 is exactly the result built from `e`. -/
lemma result_twenty_eq {idx : List (String × IndexEntry)} {q : String} {e : IndexEntry}
    (hwf : WellFormedIndex idx) (he : (q, e) ∈ idx) {x : SearchResult}
    (hx : x ∈ (idx.filter (isCandidate q)).map
      (fun kv => (⟨kv.2, calculateRelevance kv.2 q⟩ : SearchResult)))
    (h20 : x.relevance = 20) : x = ⟨e, 20⟩ := by
  rcases List.mem_map.mp hx with ⟨kv, hkv, rfl⟩
  have hkv' : kv ∈ idx := (List.mem_filter.mp hkv).1
  have h2 := relevance_twenty_iff.mp h20
  have hkey : kv.1 = lowerString kv.2.text := hwf.2 kv hkv' (Or.inl h2.2)
  have hkq : kv.1 = q := hkey.trans h2.1
  have hmem : (q, kv.2) ∈ idx := by
    rw [← hkq]
    exact hkv'
  have hke : kv.2 = e := nodupKeys_eq hwf.1 hmem he
  have h20' : calculateRelevance e q = 20 := by
    rw [← hke]
    exact h20
  rw [hke, h20']

/-- A navigation entry whose key equals the query is a candidate and
appears among the scored results with relevance 20. -/
lemma mem_search_results {idx : List (String × IndexEntry)} {q : String} {e : IndexEntry}
    (hwf : WellFormedIndex idx) (he : (q, e) ∈ idx)
    (hnav : e.type = EntryType.navigation) :
    (⟨e, 20⟩ : SearchResult) ∈ (idx.filter (isCandidate q)).map
      (fun kv => (⟨kv.2, calculateRelevance kv.2 q⟩ : SearchResult)) := by
  have hq : lowerString e.text = q := (hwf.2 (q, e) he (Or.inl hnav)).symm
  have hcand : isCandidate q (q, e) = true := by
    unfold isCandidate
    rw [includesSelf q]
    rfl
  have h20 : calculateRelevance e q = 20 := relevance_twenty_iff.mpr ⟨hq, hnav⟩
  exact List.mem_map.mpr ⟨(q, e), List.mem_filter.mpr ⟨he, hcand⟩, by rw [h20]⟩

/-- C1: every candidate's relevance is the cumulative sum of the five
bonuses (+10 exact, +5 prefix, +3 substring, +2 navigation, +1
heading); results are sorted by descending relevance; and a query that
equals an indexed navigation key makes that navigation entry score 20
and rank first, strictly ahead of every other (in particular every
heading or content) result. -/
theorem searchRelevance_ranking (idx : List (String × IndexEntry)) (q : String)
    (e : IndexEntry) :
    (∀ item : IndexEntry,
        calculateRelevance item q =
          (if lowerString item.text = q then 10 else 0) +
          (if strStartsWith (lowerString item.text) q then 5 else 0) +
          (if strIncludes (lowerString item.text) q then 3 else 0) +
          (if item.type = EntryType.navigation then 2 else 0) +
          (if item.type = EntryType.heading then 1 else 0)) ∧
    List.Sorted resultOrder (searchContent idx q) ∧
    (WellFormedIndex idx → (q, e) ∈ idx → e.type = EntryType.navigation → 2 ≤ q.length →
      calculateRelevance e q = 20 ∧
      ∃ rest, searchContent idx q = ⟨e, 20⟩ :: rest ∧ ∀ x ∈ rest, x.relevance < 20) := by
  refine ⟨?_, ?_, ?_⟩
  · intro item
    unfold calculateRelevance
    dsimp only
    split_ifs <;> simp_all
  · exact List.sorted_insertionSort resultOrder _
  · intro hwf hmem hnav _hlen
    have hq : lowerString e.text = q := (hwf.2 (q, e) hmem (Or.inl hnav)).symm
    have h20 : calculateRelevance e q = 20 := relevance_twenty_iff.mpr ⟨hq, hnav⟩
    refine ⟨h20, ?_⟩
    set results := (idx.filter (isCandidate q)).map
      (fun kv => (⟨kv.2, calculateRelevance kv.2 q⟩ : SearchResult)) with hres
    have hL : searchContent idx q = results.insertionSort resultOrder := rfl
    have hperm : List.Perm (results.insertionSort resultOrder) results :=
      List.perm_insertionSort resultOrder results
    have hmemL : (⟨e, 20⟩ : SearchResult) ∈ results.insertionSort resultOrder :=
      hperm.mem_iff.mpr (mem_search_results hwf hmem hnav)
    obtain ⟨hd, rest, hcons⟩ : ∃ hd rest,
        results.insertionSort resultOrder = hd :: rest := by
      cases hE : results.insertionSort resultOrder with
      | nil =>
        rw [hE] at hmemL
        cases hmemL
      | cons a b => exact ⟨a, b, rfl⟩
    have hsorted : List.Sorted resultOrder (results.insertionSort resultOrder) :=
      List.sorted_insertionSort resultOrder results
    have hbound : ∀ x ∈ results, x.relevance ≤ 20 := by
      intro x hx
      rcases List.mem_map.mp hx with ⟨kv, _, rfl⟩
      exact calculateRelevance_le kv.2 q
    have hhd_memL : hd ∈ results.insertionSort resultOrder := by
      rw [hcons]
      exact List.mem_cons_self hd rest
    have hhd_mem : hd ∈ results := hperm.subset hhd_memL
    have hhd20 : hd.relevance = 20 := by
      rcases List.mem_cons.mp (hcons ▸ hmemL) with hh | hh
      · rw [← hh]
      · have hle : resultOrder hd ⟨e, 20⟩ :=
          List.rel_of_sorted_cons (hcons ▸ hsorted) _ hh
        exact le_antisymm (hbound hd hhd_mem) hle
    have hhd : hd = ⟨e, 20⟩ := result_twenty_eq hwf hmem hhd_mem hhd20
    refine ⟨rest, by rw [hL, hcons, hhd], ?_⟩
    intro x hxrest
    by_contra hge
    push_neg at hge
    have hx_memL : x ∈ results.insertionSort resultOrder := by
      rw [hcons]
      exact List.mem_cons_of_mem hd hxrest
    have hx_mem : x ∈ results := hperm.subset hx_memL
    have hx20 : x.relevance = 20 := le_antisymm (hbound x hx_mem) hge
    have hxm : x = ⟨e, 20⟩ := result_twenty_eq hwf hmem hx_mem hx20
    have hpre : ∀ kv ∈ idx.filter (isCandidate q),
        (fun kv => (⟨kv.2, calculateRelevance kv.2 q⟩ : SearchResult)) kv = ⟨e, 20⟩ →
          kv = (q, e) := by
      intro kv hkv hf
      have h1 : kv.2 = e := congrArg SearchResult.entry hf
      have h2 : calculateRelevance kv.2 q = 20 := congrArg SearchResult.relevance hf
      have h3 := relevance_twenty_iff.mp h2
      have hkey : kv.1 = lowerString kv.2.text :=
        hwf.2 kv (List.mem_filter.mp hkv).1 (Or.inl h3.2)
      exact Prod.ext (hkey.trans h3.1) h1
    have hcount1 : results.count (⟨e, 20⟩ : SearchResult) ≤ 1 := by
      have step1 : results.count (⟨e, 20⟩ : SearchResult) ≤
          @List.count _ instBEqOfDecidableEq (q, e) (idx.filter (isCandidate q)) :=
        count_map_le_of_unique_preimage _ _ _ _ hpre
      have step2 : @List.count _ instBEqOfDecidableEq (q, e) (idx.filter (isCandidate q)) ≤
          @List.count _ instBEqOfDecidableEq (q, e) idx :=
        @List.Sublist.count_le _ instBEqOfDecidableEq _ _ (List.filter_sublist idx) (q, e)
      have step3 : @List.count _ instBEqOfDecidableEq (q, e) idx ≤ 1 :=
        List.nodup_iff_count_le_one.mp ( List.Nodup.of_map _ hwf.1) (q, e)
      omega
    have hcount2 : (results.insertionSort resultOrder).count (⟨e, 20⟩ : SearchResult) =
        results.count ⟨e, 20⟩ := hperm.count_eq _
    have hge2 : 2 ≤ (results.insertionSort resultOrder).count (⟨e, 20⟩ : SearchResult) := by
      rw [hcons, hhd, List.count_cons_self]
      have hpos : 0 < rest.count (⟨e, 20⟩ : SearchResult) :=
        List.count_pos_iff.mpr (hxm ▸ hxrest)
      omega
    omega

/-- Witness for `searchRelevance_ranking` on the demo index with the
query `home`: the `Home` navigation entry scores 20 and heads the
result list, everything after it scoring strictly less. -/
theorem searchRelevance_ranking_witness :
    WellFormedIndex demoIndex ∧ ("home", demoNavHome) ∈ demoIndex ∧
    demoNavHome.type = EntryType.navigation ∧ 2 ≤ "home".length ∧
    (calculateRelevance demoNavHome "home" = 20 ∧
      ∃ rest, searchContent demoIndex "home" = ⟨demoNavHome, 20⟩ :: rest ∧
        ∀ x ∈ rest, x.relevance < 20) :=
  ⟨by decide, by decide, rfl, by decide,
    (searchRelevance_ranking demoIndex "home" demoNavHome).2.2
      (by decide) (by decide) rfl (by decide)⟩
